import Mathlib

/-
  Verification of the UE-Portals portal scene-capture component
  (Source/Portals/Private/PortalSceneCapture.cpp) against its
  natural-language specification.

  Shallow embedding conventions:
  * C++ floats are modelled as exact reals; the C cast float->int32 is
    modelled as truncation toward zero (cppToInt).
  * Engine vector/quaternion math (FVector, FQuat, FRotator) is embedded
    with the engine's own componentwise formulas over the reals.
  * UObject pointers are modelled as optional portal ids resolved through
    a per-frame lookup (FrameEnv.portals); render-target objects carry an
    allocation id so that "newly allocated" is expressible.
  * Per-frame engine inputs (player camera location, viewport size, the
    owning actor returned by GetOwner) are gathered in FrameEnv.
-/

set_option maxHeartbeats 1000000

namespace Portals

open scoped Classical

/-- Camera type tag of a portal scene capture.  Modelled from the spec:
the header declaring ECameraType is not under src; section 3 of the spec
gives the tag set as exactly Mirror and Portal. -/
inductive ECameraType where
  | Mirror : ECameraType
  | Portal : ECameraType
deriving DecidableEq

/-- Clear colors used for render targets: bootstrap blue
(GenerateDefaultTexture) and steady-state black (UpdateRenderTarget). -/
inductive ClearColor where
  | blue : ClearColor
  | black : ClearColor
deriving DecidableEq

/-- Render-target pixel format; the code always uses RTF_RGBA16f. -/
inductive RTFormat where
  | RGBA16f : RTFormat
deriving DecidableEq

/-- Texture filtering mode; the code always uses TF_Bilinear. -/
inductive TexFilter where
  | Bilinear : TexFilter
deriving DecidableEq

/-- FVector: a 3-component vector, floats modelled as exact reals. -/
structure FVector where
  x : ℝ
  y : ℝ
  z : ℝ

instance : Zero FVector := ⟨⟨0, 0, 0⟩⟩
instance : Add FVector := ⟨fun a b => ⟨a.x + b.x, a.y + b.y, a.z + b.z⟩⟩
instance : Sub FVector := ⟨fun a b => ⟨a.x - b.x, a.y - b.y, a.z - b.z⟩⟩
instance : Neg FVector := ⟨fun a => ⟨-a.x, -a.y, -a.z⟩⟩
instance : SMul ℝ FVector := ⟨fun c a => ⟨c * a.x, c * a.y, c * a.z⟩⟩

/-- Dot product of two FVectors. -/
def dotV (a b : FVector) : ℝ := a.x * b.x + a.y * b.y + a.z * b.z

/-- Cross product of two FVectors. -/
def crossV (a b : FVector) : FVector :=
  ⟨a.y * b.z - a.z * b.y, a.z * b.x - a.x * b.z, a.x * b.y - a.y * b.x⟩

/-- Euclidean length of an FVector (FVector::Size). -/
noncomputable def normV (v : FVector) : ℝ := Real.sqrt (dotV v v)

/-- FVector::Dist. -/
noncomputable def distV (a b : FVector) : ℝ := normV (a - b)

/-- Normalization of an FVector over the reals.  FVector::GetSafeNormal
and FVector::Normalize both leave the zero vector at zero (below the
tolerance) and otherwise scale by the inverse length; over exact reals
both collapse to this map. -/
noncomputable def normalizeV (v : FVector) : FVector :=
  if v = 0 then 0 else (normV v)⁻¹ • v

/-- FQuat: a quaternion with components (x, y, z, w) over the reals. -/
structure FQuat where
  x : ℝ
  y : ℝ
  z : ℝ
  w : ℝ

/-- Hamilton product, as implemented by FQuat::operator* (apply b, then a). -/
def quatMul (a b : FQuat) : FQuat :=
  ⟨a.w * b.x + a.x * b.w + a.y * b.z - a.z * b.y,
   a.w * b.y - a.x * b.z + a.y * b.w + a.z * b.x,
   a.w * b.z + a.x * b.y - a.y * b.x + a.z * b.w,
   a.w * b.w - a.x * b.x - a.y * b.y - a.z * b.z⟩

/-- Quaternion conjugate (FQuat::Inverse for unit quaternions). -/
def quatConj (q : FQuat) : FQuat := ⟨-q.x, -q.y, -q.z, q.w⟩

/-- The FQuat(axis, angleRad) constructor: half-angle axis form. -/
noncomputable def quatFromAxisAngle (axis : FVector) (angle : ℝ) : FQuat :=
  ⟨axis.x * Real.sin (angle / 2), axis.y * Real.sin (angle / 2),
   axis.z * Real.sin (angle / 2), Real.cos (angle / 2)⟩

/-- FQuat::RotateVector, exactly the engine's formula
v + w * (2 (q x v)) + q x (2 (q x v)). -/
def quatRotate (q : FQuat) (v : FVector) : FVector :=
  let u : FVector := ⟨q.x, q.y, q.z⟩
  let t : FVector := (2 : ℝ) • crossV u v
  v + q.w • t + crossV u t

/-- FRotator: pitch, yaw and roll in degrees. -/
structure Rotator where
  pitch : ℝ
  yaw : ℝ
  roll : ℝ

/-- Degrees to radians. -/
noncomputable def degToRad (x : ℝ) : ℝ := x * (Real.pi / 180)

/-- Radians to degrees. -/
noncomputable def radToDeg (x : ℝ) : ℝ := x * (180 / Real.pi)

/-- C atan2: the argument of the complex number x + i y, in (-pi, pi]. -/
noncomputable def atan2 (y x : ℝ) : ℝ := Complex.arg ⟨x, y⟩

/-- The C cast from a floating value to an integer: truncation toward 0. -/
noncomputable def cppToInt (x : ℝ) : ℤ := if x < 0 then ⌈x⌉ else ⌊x⌋

/-- C fmod over exact reals: a - trunc(a/b) * b. -/
noncomputable def cppFmod (a b : ℝ) : ℝ := a - ((cppToInt (a / b) : ℤ) : ℝ) * b

/-- FRotator::NormalizeAxis: reduce an angle in degrees to (-180, 180]. -/
noncomputable def normalizeAxis (a : ℝ) : ℝ :=
  let m := cppFmod a 360
  let m2 := if m < 0 then m + 360 else m
  if 180 < m2 then m2 - 360 else m2

/-- FQuat::Rotator: Euler extraction with the engine's singularity test
(threshold 0.4999995 on z*x - w*y); FastAsin modelled as exact arcsin. -/
noncomputable def quatToRotator (q : FQuat) : Rotator :=
  let st := q.z * q.x - q.w * q.y
  let yawY := 2 * (q.w * q.z + q.x * q.y)
  let yawX := 1 - 2 * (q.y * q.y + q.z * q.z)
  let yawVal := radToDeg (atan2 yawY yawX)
  if st < -(0.4999995 : ℝ) then
    { pitch := -90, yaw := yawVal,
      roll := normalizeAxis (-yawVal - radToDeg (2 * atan2 q.x q.w)) }
  else if (0.4999995 : ℝ) < st then
    { pitch := 90, yaw := yawVal,
      roll := normalizeAxis (yawVal - radToDeg (2 * atan2 q.x q.w)) }
  else
    { pitch := radToDeg (Real.arcsin (2 * st)), yaw := yawVal,
      roll := radToDeg (atan2 (-2 * (q.w * q.x + q.y * q.z))
                              (1 - 2 * (q.x * q.x + q.z * q.z))) }

/-- FRotator::Quaternion: the engine's closed form from the half angles
of pitch, yaw and roll (in degrees). -/
noncomputable def rotatorToQuat (r : Rotator) : FQuat :=
  let sp := Real.sin (degToRad r.pitch / 2)
  let cp := Real.cos (degToRad r.pitch / 2)
  let sy := Real.sin (degToRad r.yaw / 2)
  let cy := Real.cos (degToRad r.yaw / 2)
  let sr := Real.sin (degToRad r.roll / 2)
  let cr := Real.cos (degToRad r.roll / 2)
  ⟨cr * sp * sy - sr * cp * cy,
   -cr * sp * cy - sr * cp * sy,
   cr * cp * sy - sr * sp * cy,
   cr * cp * cy + sr * sp * sy⟩

/-- Spec-side meaning of "rotate v around the unit axis n by the angle θ":
the Rodrigues rotation formula. -/
noncomputable def rodrigues (n : FVector) (θ : ℝ) (v : FVector) : FVector :=
  Real.cos θ • v + Real.sin θ • crossV n v + ((1 - Real.cos θ) * dotV n v) • n

/-- The unit normal of the incidence plane through (watcher position,
portal midpoint, portal midpoint + portal normal): FPlane(A, B, C) has
normal ((B-A) x (C-A)).GetSafeNormal(), and line 170 normalizes once
more. -/
noncomputable def incidencePlaneNormal (wa mid nrm : FVector) : FVector :=
  normalizeV (normalizeV (crossV (mid - wa) (mid + nrm - wa)))

/-- Modelled from the spec: Tools::ComputeIncidenceAngle lives in
PortalTools, which is not under src.  Section 4.1: the incidence angle at
the portal midpoint, here the angle in degrees between the ray from the
midpoint to the point and the portal normal. -/
noncomputable def Tools.ComputeIncidenceAngle (point mid normal : FVector) : ℝ :=
  radToDeg (Real.arccos (dotV (point - mid) normal / (normV (point - mid) * normV normal)))

/-- Modelled from the spec: Tools::ComputeRefractionAngle lives in
PortalTools, which is not under src.  Section 4.1: refraction follows
n1 sin θ1 = n2 sin θ2, and when the implied sin θ2 exceeds 1 the result
is the total-reflection sentinel; the caller at line 161 of
PortalSceneCapture.cpp identifies that sentinel with -1. -/
noncomputable def Tools.ComputeRefractionAngle (incidence n1 n2 : ℝ) : ℝ :=
  if 1 < n1 / n2 * Real.sin (degToRad incidence) then -1
  else radToDeg (Real.arcsin (n1 / n2 * Real.sin (degToRad incidence)))

/-- An APortal actor as seen by the capture component: world location,
forward vector, middle point, and world rotation. -/
structure Portal where
  location : FVector
  forward : FVector
  middlePoint : FVector
  rotation : FQuat

/-- FTransform restricted to the parts the code reads and writes
(GetLocation/SetLocation, GetRotation/SetRotation); scale is untouched
by the code and omitted. -/
structure FTransform where
  location : FVector
  rotation : FQuat

/-- The projection matrix is passed through opaquely. -/
def FMatrix : Type := Fin 4 → Fin 4 → ℝ

/-- A UTextureRenderTarget2D as far as the code configures it.  The id is
a per-component allocation counter standing for object identity of
NewObject results; gamma/addressing/mip fields set only in
GenerateDefaultTexture are not mentioned by any claim and are omitted. -/
structure RenderTarget where
  id : ℕ
  format : RTFormat
  filter : TexFilter
  clearColor : ClearColor
  sizeX : ℤ
  sizeY : ℤ

/-- The mutable state of a UPortalSceneCapture component: the m_* members
from the (missing) header as used by the .cpp, the scene-capture
properties it assigns (TextureTarget, CustomProjectionMatrix, its world
transform, the clip plane), a capture counter logging CaptureScene calls,
and the allocation counter for NewObject. -/
structure PortalState where
  m_type : ECameraType
  m_linked_portal : Option ℕ
  m_exit_in_front : Bool
  m_weight : ℝ
  m_refractive_ind_1 : ℝ
  m_refractive_ind_2 : ℝ
  m_owner : Option ℕ
  m_is_total_reflection : Bool
  m_render_target : Option RenderTarget
  CachedRenderSize : ℤ
  LastDistanceToCamera : ℝ
  TextureTarget : Option RenderTarget
  CustomProjectionMatrix : Option FMatrix
  worldTransform : FTransform
  ClipPlaneNormal : FVector
  ClipPlaneBase : FVector
  captureCount : ℕ
  nextId : ℕ

/-- Per-frame engine environment: the portal-id lookup (actor geometry can
move between frames), the result of GetOwner() when it is an APortal, the
player camera location, this component's location, and the game viewport
size when GEngine->GameViewport is available. -/
structure FrameEnv where
  portals : ℕ → Portal
  ownerActor : Option ℕ
  cameraLocation : FVector
  componentLocation : FVector
  viewport : Option (ℕ × ℕ)

/-- Modelled from the spec: GetTrueType is declared in the missing header.
Section 4.1 branches refraction on the configured camera-type tag, and the
total-reflection flag is recomputed each frame rather than fed back into
the type, so the true type is the configured type. -/
def GetTrueType (s : PortalState) : ECameraType := s.m_type

/-- Modelled from the spec: getType is declared in the missing header;
the plain accessor for the configured camera type. -/
def getType (s : PortalState) : ECameraType := s.m_type

/-- Modelled from the spec: Tools::ComputeNewTransform lives in
PortalTools, which is not under src.  Section 4.2: express the modified
pose in the source portal's local frame, then re-express it in the
destination frame composed with a 180-degree rotation about the up axis.
No claim constrains its internals. -/
noncomputable def Tools.ComputeNewTransform (t : FTransform) (src dst : Portal) : FTransform :=
  let flip := quatFromAxisAngle ⟨0, 0, 1⟩ Real.pi
  let rel := quatRotate (quatConj src.rotation) (t.location - src.location)
  let relRot := quatMul (quatConj src.rotation) t.rotation
  { location := dst.location + quatRotate (quatMul dst.rotation flip) rel,
    rotation := quatMul (quatMul dst.rotation flip) relRot }

/-- FMath::Clamp over reals, exactly the engine's branch structure
(X < Min ? Min : X < Max ? X : Max). -/
noncomputable def cppClamp (x lo hi : ℝ) : ℝ :=
  if x < lo then lo else if x < hi then x else hi

/-- FMath::Clamp over int32, same branch structure. -/
def cppClampZ (x lo hi : ℤ) : ℤ :=
  if x < lo then lo else if x < hi then x else hi

/-- Ceiling base-2 logarithm on uint32, by structural recursion on the
bit budget: the smallest k with n ≤ 2 ^ k for n ≤ 2 ^ fuel. -/
def ceilLog2Aux : ℕ → ℕ → ℕ
  | 0, _ => 0
  | fuel + 1, n => if n ≤ 1 then 0 else ceilLog2Aux fuel ((n + 1) / 2) + 1

/-- FMath::RoundUpToPowerOfTwo on uint32 (1 << CeilLogTwo).  For inputs
of at least 1 this agrees with the engine; the engine's wrap-around at 0
(where it returns 0) is never reached by the code, whose interpolated
sizes are at least 256. -/
def roundUpToPowerOfTwo (n : ℕ) : ℕ := 2 ^ ceilLog2Aux 32 n

/-- Lines 102: Alpha = Clamp((Distance - Near) / (Far - Near), 0, 1). -/
noncomputable def renderAlpha (Distance : ℝ) : ℝ :=
  cppClamp ((Distance - 300) / (2000 - 300)) 0 1

/-- Lines 103-104: Size = Lerp(1024, 256, Alpha) truncated to int32, then
rounded up to a power of two.  FMath::Lerp(A, B, Alpha) is
(int32)(A + Alpha * (B - A)). -/
noncomputable def baseRenderSize (Distance : ℝ) : ℤ :=
  ((roundUpToPowerOfTwo (cppToInt ((1024 : ℝ) + renderAlpha Distance * ((256 : ℝ) - 1024))).toNat : ℕ) : ℤ)

/-- Lines 95-116: UPortalSceneCapture::CalculateRenderSize.  The viewport
is the GEngine->GameViewport size when available, modelled as an optional
pair of pixel dimensions; note the code clamps to the rounded-up MINIMUM
viewport dimension (FMath::Min, stored in the variable ScreenMin). -/
noncomputable def CalculateRenderSize (Distance : ℝ) (viewport : Option (ℕ × ℕ)) : ℤ :=
  match viewport with
  | none => baseRenderSize Distance
  | some wh =>
      cppClampZ (baseRenderSize Distance) 256
        ((roundUpToPowerOfTwo (min wh.1 wh.2) : ℕ) : ℤ)

/-- Lines 67-78: SetOwnerIfAvailable; succeeds exactly when GetOwner() is
an APortal, in which case m_owner is set. -/
def SetOwnerIfAvailable (s : PortalState) (env : FrameEnv) : Bool × PortalState :=
  match env.ownerActor with
  | some pid => (true, { s with m_owner := some pid })
  | none => (false, s)

/-- Lines 81-84: IsOwnerValid = m_owner || SetOwnerIfAvailable(). -/
def IsOwnerValid (s : PortalState) (env : FrameEnv) : Bool × PortalState :=
  if s.m_owner.isSome then (true, s) else SetOwnerIfAvailable s env

/-- Lines 87-93: UPortalSceneCapture::Init stores the four configuration
values unchanged. -/
def Init (s : PortalState) (type : ECameraType) (linked_portal : Option ℕ)
    (exit_in_front : Bool) (weight : ℝ) : PortalState :=
  { s with m_type := type, m_linked_portal := linked_portal,
           m_exit_in_front := exit_in_front, m_weight := weight }

/-- Lines 205-246: GenerateDefaultTexture.  Distance falls back to the
camera distance when LastDistanceToCamera is zero; the bootstrap target
is blue and square with the policy size; CachedRenderSize is cached. -/
noncomputable def GenerateDefaultTexture (s : PortalState) (env : FrameEnv) : PortalState :=
  let Distance := if s.LastDistanceToCamera = 0
    then distV env.cameraLocation env.componentLocation
    else s.LastDistanceToCamera
  let CurrentSize := CalculateRenderSize Distance env.viewport
  { s with
    CachedRenderSize := CurrentSize,
    m_render_target := some ⟨s.nextId, RTFormat.RGBA16f, TexFilter.Bilinear,
                             ClearColor.blue, CurrentSize, CurrentSize⟩,
    nextId := s.nextId + 1 }

/-- Lines 20-36: UPortalSceneCapture::BeginPlay: bootstrap texture, owner
resolution, then the three configuration fix-ups in source order. -/
noncomputable def BeginPlay (s : PortalState) (env : FrameEnv) : PortalState :=
  let s1 := GenerateDefaultTexture s env
  let s2 := (SetOwnerIfAvailable s1 env).2
  let s3 := if s2.m_type ≠ ECameraType.Portal then { s2 with m_exit_in_front := false } else s2
  let s4 := if s3.m_weight < 0 then { s3 with m_weight := 0 } else s3
  if s4.m_linked_portal.isNone then { s4 with m_linked_portal := s4.m_owner } else s4

/-- Lines 38-64: UPortalSceneCapture::UpdateRenderTarget.  The float
comparison Abs((float)Desired - (float)Cached) > 32 is exact integer
arithmetic at these magnitudes and is modelled over ℤ.  On a significant
change a fresh black square target is published and the size cached;
otherwise nothing but LastDistanceToCamera changes. -/
noncomputable def UpdateRenderTarget (s : PortalState) (env : FrameEnv) : PortalState :=
  let Distance := distV env.cameraLocation env.componentLocation
  let DesiredSize := CalculateRenderSize Distance env.viewport
  if 32 < |DesiredSize - s.CachedRenderSize| then
    { s with
      TextureTarget := some ⟨s.nextId, RTFormat.RGBA16f, TexFilter.Bilinear,
                             ClearColor.black, DesiredSize, DesiredSize⟩,
      CachedRenderSize := DesiredSize,
      nextId := s.nextId + 1,
      LastDistanceToCamera := Distance }
  else { s with LastDistanceToCamera := Distance }

/-- Lines 148-182 of UpdateTransformation_Implementation: the refraction
bend of the watched transform.  Returns the modified transform and the
new value of m_is_total_reflection.

Embedding notes, matching the source line by line:
* the guard is GetTrueType() != Mirror && n1 != n2;
* FPlane(A, B, C) has normal ((B-A) x (C-A)).GetSafeNormal(), and the
  code normalizes once more, hence the two normalizeV applications;
* FQuat(axis, DegreesToRadians(θ1 - θ2)).Rotator() fed to
  FRotationAboutPointMatrix applies exactly the rotation of that
  quaternion about the portal midpoint (the engine's quaternion-to-
  rotator-to-matrix conversions are representation changes of one and
  the same rotation, exact over the reals), so the location update is
  modelled as rotation by the quaternion about the midpoint;
* the rotator with pitch and roll zeroed is converted back through
  FRotator::Quaternion and composed on the left of the original rotation;
* in the branch where the guard fails, and in the total-reflection
  branch, the transform is returned unchanged; the C++ writes
  m_is_total_reflection only inside the guard, which is modelled by
  returning the incoming flag unchanged outside it. -/
noncomputable def BendPose (s : PortalState) (g : Portal) (t : FTransform) : FTransform × Bool :=
  if GetTrueType s ≠ ECameraType.Mirror ∧ s.m_refractive_ind_1 ≠ s.m_refractive_ind_2 then
    let portal_mid := g.middlePoint
    let portal_normal := g.forward
    let wa_pos := t.location
    let incidence_angle := Tools.ComputeIncidenceAngle wa_pos portal_mid portal_normal
    let refraction_angle := Tools.ComputeRefractionAngle incidence_angle
        s.m_refractive_ind_1 s.m_refractive_ind_2
    if refraction_angle = -1 then (t, true)
    else
      let incidence_plane_normal := incidencePlaneNormal wa_pos portal_mid portal_normal
      let q := quatFromAxisAngle incidence_plane_normal (degToRad (incidence_angle - refraction_angle))
      let rotation := quatToRotator q
      let newLoc := portal_mid + quatRotate q (t.location - portal_mid)
      let rotationYawOnly : Rotator := { rotation with pitch := 0, roll := 0 }
      ({ location := newLoc, rotation := quatMul (rotatorToQuat rotationYawOnly) t.rotation }, false)
  else (t, s.m_is_total_reflection)

/-- Lines 144-186: UpdateTransformation_Implementation.  Under a valid
owner the watched transform is bent by refraction, the flag stored, and
the world transform set from Tools::ComputeNewTransform between the owner
portal and the linked portal (the component's attachment target). -/
noncomputable def UpdateTransformation (s : PortalState) (env : FrameEnv)
    (watched : FTransform) : PortalState :=
  let vs := IsOwnerValid s env
  if vs.1 then
    match vs.2.m_owner with
    | some oid =>
        let g := env.portals oid
        let bent := BendPose vs.2 g watched
        let dst := match vs.2.m_linked_portal with
          | some lid => env.portals lid
          | none => g
        { vs.2 with
          m_is_total_reflection := bent.2,
          worldTransform := Tools.ComputeNewTransform bent.1 g dst }
    | none => vs.2
  else vs.2

/-- Lines 189-202: UpdateNearClipPlane_Implementation.  The target portal
is the linked portal for Portal type, else the owner; the normal is
-(target forward) * (isMirror || exitInFront ? -1 : 1) and the base is
offset by 0.3 along the normal.  A null target portal would fault in the
C++ and is unreachable from Update; it is modelled as a no-op. -/
noncomputable def UpdateNearClipPlane (s : PortalState) (env : FrameEnv) : PortalState :=
  let vs := IsOwnerValid s env
  if vs.1 then
    let s1 := vs.2
    let tgt := if getType s1 = ECameraType.Portal then s1.m_linked_portal else s1.m_owner
    match tgt with
    | some tid =>
        let target := env.portals tid
        let sign : ℝ := if getType s1 = ECameraType.Mirror ∨ s1.m_exit_in_front = true then -1 else 1
        let n := sign • (-target.forward)
        { s1 with ClipPlaneNormal := n, ClipPlaneBase := target.location + (0.3 : ℝ) • n }
    | none => s1
  else vs.2

/-- Lines 119-141: UPortalSceneCapture::Update.  A missing render target
regenerates the default texture (the GetFName().IsNone() disjunct concerns
object naming, not modelled); with a valid owner, a set linked portal
triggers the pose and clip-plane updates, and in every valid-owner frame
the target, projection matrix and capture happen.  CaptureScene() is
logged by incrementing captureCount. -/
noncomputable def Update (s : PortalState) (env : FrameEnv) (watched : FTransform)
    (proj : FMatrix) : PortalState :=
  let s1 := if s.m_render_target.isNone then GenerateDefaultTexture s env else s
  let vs := IsOwnerValid s1 env
  if vs.1 then
    let s2 := vs.2
    let s3 := if s2.m_linked_portal.isSome then
        UpdateNearClipPlane (UpdateTransformation s2 env watched) env
      else s2
    { s3 with
      TextureTarget := s3.m_render_target,
      CustomProjectionMatrix := some proj,
      captureCount := s3.captureCount + 1 }
  else vs.2

/-- One externally triggerable per-frame operation on the component. -/
inductive FrameOp where
  | frame (env : FrameEnv) (watched : FTransform) (proj : FMatrix) : FrameOp
  | renderTarget (env : FrameEnv) : FrameOp
  | clipPlane (env : FrameEnv) : FrameOp
  | transformation (env : FrameEnv) (watched : FTransform) : FrameOp

/-- Apply one per-frame operation. -/
noncomputable def applyOp (s : PortalState) : FrameOp → PortalState
  | FrameOp.frame env w p => Update s env w p
  | FrameOp.renderTarget env => UpdateRenderTarget s env
  | FrameOp.clipPlane env => UpdateNearClipPlane s env
  | FrameOp.transformation env w => UpdateTransformation s env w

/-- Run a sequence of per-frame operations. -/
noncomputable def runOps (s : PortalState) (ops : List FrameOp) : PortalState :=
  ops.foldl applyOp s

/-- Spec-side pure function of one frame's configuration and incidence
geometry that the total-reflection flag is claimed to equal: true exactly
when refraction is attempted and hits the total-reflection sentinel. -/
noncomputable def flagSpec (ty : ECameraType) (n1 n2 : ℝ) (g : Portal) (t : FTransform) : Bool :=
  if ty ≠ ECameraType.Mirror ∧ n1 ≠ n2 then
    if Tools.ComputeRefractionAngle
        (Tools.ComputeIncidenceAngle t.location g.middlePoint g.forward) n1 n2 = -1
    then true else false
  else false

/-- Spec-side clip-plane normal formula of section 4.3:
normal = -(targetForward) * (isMirror || exitInFront ? -1 : 1). -/
noncomputable def clipNormalFormula (ty : ECameraType) (exitInFront : Bool)
    (targetForward : FVector) : FVector :=
  (if ty = ECameraType.Mirror ∨ exitInFront = true then (-1 : ℝ) else 1) • (-targetForward)

/-- Identity quaternion. -/
def qId : FQuat := ⟨0, 0, 0, 1⟩

/-- A resting transform used to populate concrete states. -/
def tId : FTransform := ⟨⟨0, 0, 0⟩, qId⟩

/-- A concrete portal at the origin facing +x. -/
def portal0 : Portal := ⟨⟨0, 0, 0⟩, ⟨1, 0, 0⟩, ⟨0, 0, 0⟩, qId⟩

/-- A concrete render target used by concrete states. -/
def rt0 : RenderTarget := ⟨0, RTFormat.RGBA16f, TexFilter.Bilinear, ClearColor.blue, 1024, 1024⟩

/-- The zero projection matrix, used where a concrete matrix is needed. -/
def proj0 : FMatrix := fun _ _ => 0

/-- The component state right after the C++ constructor: CachedRenderSize
and LastDistanceToCamera are zeroed explicitly; the remaining members get
UObject zero-initialization (null pointers, false, 0.0, first enum
value). -/
def initialState : PortalState :=
  { m_type := ECameraType.Mirror, m_linked_portal := none, m_exit_in_front := false,
    m_weight := 0, m_refractive_ind_1 := 0, m_refractive_ind_2 := 0,
    m_owner := none, m_is_total_reflection := false, m_render_target := none,
    CachedRenderSize := 0, LastDistanceToCamera := 0, TextureTarget := none,
    CustomProjectionMatrix := none, worldTransform := tId,
    ClipPlaneNormal := ⟨0, 0, 0⟩, ClipPlaneBase := ⟨0, 0, 0⟩,
    captureCount := 0, nextId := 1 }

/-- A concrete environment whose camera sits at the component location. -/
def env0 : FrameEnv :=
  { portals := fun _ => portal0, ownerActor := none,
    cameraLocation := ⟨0, 0, 0⟩, componentLocation := ⟨0, 0, 0⟩, viewport := none }

/-- Concrete state for the hysteresis witness: cached at 1024 with a
published target. -/
def hysteresisState : PortalState :=
  { initialState with CachedRenderSize := 1024, TextureTarget := some rt0 }

/-- Two states agree on the configuration fields that no per-frame
operation writes: camera type, both refractive indices, and the
exit-in-front flag. -/
def sameConfig (s s' : PortalState) : Prop :=
  s'.m_type = s.m_type ∧
  s'.m_refractive_ind_1 = s.m_refractive_ind_1 ∧
  s'.m_refractive_ind_2 = s.m_refractive_ind_2 ∧
  s'.m_exit_in_front = s.m_exit_in_front

/-- Concrete mirror-configured state (for the C2 witness). -/
def mirrorState : PortalState :=
  { initialState with
    m_type := ECameraType.Mirror
    m_owner := some 0
    m_linked_portal := some 1
    m_render_target := some rt0 }

/-- Concrete state with owner and linked portal resolved (for the C3
witness). -/
def c3State : PortalState :=
  { initialState with
    m_type := ECameraType.Mirror
    m_owner := some 0
    m_linked_portal := some 1 }

/-- Concrete state whose owner is resolved but whose linked portal is
not (for C8). -/
def skipState : PortalState :=
  { initialState with
    m_owner := some 0
    m_linked_portal := none
    m_render_target := some rt0 }

/-- Concrete state with no owner resolved but with a render target
present (for the C8 witness). -/
def unresolvedState : PortalState :=
  { initialState with m_render_target := some rt0 }

/-- Concrete Portal-type state with owner and linked portal resolved
(for the C7 witness). -/
def clipState : PortalState :=
  { initialState with
    m_type := ECameraType.Portal
    m_owner := some 0
    m_linked_portal := some 1 }

/-- Concrete refracting state n1 = 1, n2 = 2 (for the C1 witness). -/
def refrState : PortalState :=
  { initialState with
    m_type := ECameraType.Portal
    m_refractive_ind_1 := 1
    m_refractive_ind_2 := 2
    m_owner := some 0
    m_linked_portal := some 1 }

/-- Concrete watched transform off the portal axis (for the C1 witness). -/
def refrT : FTransform := ⟨⟨1, 0, 1⟩, qId⟩

/- ======================================================================
   Theorems.  Helper lemmas first, then one theorem per claim (with a
   witness or counterexample where required).
   ====================================================================== -/

theorem cppClamp01_nonneg_le_one (x : ℝ) :
    0 ≤ cppClamp x 0 1 ∧ cppClamp x 0 1 ≤ 1 := by
  unfold cppClamp
  split_ifs <;> constructor <;> linarith

theorem cppClamp01_mono {x y : ℝ} (h : x ≤ y) :
    cppClamp x 0 1 ≤ cppClamp y 0 1 := by
  unfold cppClamp
  split_ifs <;> linarith

theorem cppClamp01_of_nonpos {x : ℝ} (h : x ≤ 0) : cppClamp x 0 1 = 0 := by
  unfold cppClamp
  split_ifs <;> linarith

theorem cppClamp01_of_one_le {x : ℝ} (h : 1 ≤ x) : cppClamp x 0 1 = 1 := by
  unfold cppClamp
  split_ifs <;> linarith

theorem cppToInt_of_nonneg {x : ℝ} (h : 0 ≤ x) : cppToInt x = ⌊x⌋ := by
  unfold cppToInt
  exact if_neg (not_lt.mpr h)

theorem cppToInt_intCast {n : ℤ} (h : 0 ≤ n) : cppToInt (n : ℝ) = n := by
  rw [cppToInt_of_nonneg (by exact_mod_cast h), Int.floor_intCast]

theorem ceilLog2Aux_mono (fuel : ℕ) : ∀ {m n : ℕ}, m ≤ n →
    ceilLog2Aux fuel m ≤ ceilLog2Aux fuel n := by
  induction fuel with
  | zero => intro m n _; simp [ceilLog2Aux]
  | succ f ih =>
      intro m n h
      unfold ceilLog2Aux
      split_ifs with hm hn hn
      · exact Nat.zero_le _
      · exact Nat.zero_le _
      · omega
      · exact Nat.succ_le_succ (ih (Nat.div_le_div_right (by omega)))

theorem roundUpToPowerOfTwo_mono {m n : ℕ} (h : m ≤ n) :
    roundUpToPowerOfTwo m ≤ roundUpToPowerOfTwo n :=
  Nat.pow_le_pow_right (by norm_num) (ceilLog2Aux_mono 32 h)

theorem renderAlpha_bounds (d : ℝ) : 0 ≤ renderAlpha d ∧ renderAlpha d ≤ 1 :=
  cppClamp01_nonneg_le_one _

theorem renderAlpha_mono {d d' : ℝ} (h : d ≤ d') : renderAlpha d ≤ renderAlpha d' := by
  unfold renderAlpha
  apply cppClamp01_mono
  have h17 : (0 : ℝ) < 2000 - 300 := by norm_num
  exact (div_le_div_iff_of_pos_right h17).mpr (by linarith)

theorem baseRenderSize_anti {d d' : ℝ} (h : d ≤ d') : baseRenderSize d' ≤ baseRenderSize d := by
  unfold baseRenderSize
  have hma := renderAlpha_mono h
  have hb := renderAlpha_bounds d
  have hb' := renderAlpha_bounds d'
  have hv : (1024 : ℝ) + renderAlpha d' * ((256 : ℝ) - 1024) ≤
      (1024 : ℝ) + renderAlpha d * ((256 : ℝ) - 1024) := by nlinarith
  have hpos' : (0 : ℝ) ≤ (1024 : ℝ) + renderAlpha d' * ((256 : ℝ) - 1024) := by nlinarith
  have hpos : (0 : ℝ) ≤ (1024 : ℝ) + renderAlpha d * ((256 : ℝ) - 1024) := by nlinarith
  have hfl : cppToInt ((1024 : ℝ) + renderAlpha d' * ((256 : ℝ) - 1024)) ≤
      cppToInt ((1024 : ℝ) + renderAlpha d * ((256 : ℝ) - 1024)) := by
    rw [cppToInt_of_nonneg hpos', cppToInt_of_nonneg hpos]
    exact Int.floor_le_floor hv
  exact_mod_cast roundUpToPowerOfTwo_mono (Int.toNat_le_toNat hfl)

theorem baseRenderSize_of_alpha {d : ℝ} {a : ℝ} (ha : renderAlpha d = a)
    {v : ℤ} (hv : (1024 : ℝ) + a * ((256 : ℝ) - 1024) = (v : ℝ)) (hv0 : 0 ≤ v) :
    baseRenderSize d = ((roundUpToPowerOfTwo v.toNat : ℕ) : ℤ) := by
  unfold baseRenderSize
  rw [ha, hv, cppToInt_intCast hv0]

theorem baseRenderSize_le300 {d : ℝ} (h : d ≤ 300) : baseRenderSize d = 1024 := by
  have ha : renderAlpha d = 0 := by
    apply cppClamp01_of_nonpos
    rw [div_nonpos_iff]
    right
    constructor <;> linarith
  rw [baseRenderSize_of_alpha ha (v := 1024) (by norm_num) (by norm_num)]
  decide

theorem baseRenderSize_ge2000 {d : ℝ} (h : 2000 ≤ d) : baseRenderSize d = 256 := by
  have ha : renderAlpha d = 1 := by
    apply cppClamp01_of_one_le
    rw [le_div_iff₀ (by norm_num : (0 : ℝ) < 2000 - 300)]
    linarith
  rw [baseRenderSize_of_alpha ha (v := 256) (by norm_num) (by norm_num)]
  decide

theorem baseRenderSize_1150 : baseRenderSize 1150 = 1024 := by
  have hx : ((1150 : ℝ) - 300) / (2000 - 300) = 1 / 2 := by norm_num
  have ha : renderAlpha 1150 = 1 / 2 := by
    unfold renderAlpha
    rw [hx]
    unfold cppClamp
    split_ifs <;> linarith
  rw [baseRenderSize_of_alpha ha (v := 640) (by norm_num) (by norm_num)]
  decide

theorem baseRenderSize_pow2 (d : ℝ) : ∃ k : ℕ, baseRenderSize d = 2 ^ k := by
  refine ⟨ceilLog2Aux 32 (cppToInt ((1024 : ℝ) + renderAlpha d * ((256 : ℝ) - 1024))).toNat, ?_⟩
  unfold baseRenderSize roundUpToPowerOfTwo
  push_cast
  ring

theorem cppClampZ_self_or (x lo hi : ℤ) :
    cppClampZ x lo hi = x ∨ cppClampZ x lo hi = lo ∨ cppClampZ x lo hi = hi := by
  unfold cppClampZ
  split_ifs <;> tauto

theorem cppClampZ_bounds {x lo hi : ℤ} (h : lo ≤ hi) :
    lo ≤ cppClampZ x lo hi ∧ cppClampZ x lo hi ≤ hi := by
  unfold cppClampZ
  split_ifs <;> omega

/-- C4: with the viewport unknown, CalculateRenderSize is non-increasing
in the distance, is exactly 1024 for every distance at most 300, exactly
256 for every distance at least 2000, always a power of two, and maps
distance 1150 to 1024 (alpha one half, lerp 640, rounded up to 1024). -/
theorem c4_render_size_policy :
    (∀ d d' : ℝ, d ≤ d' → CalculateRenderSize d' none ≤ CalculateRenderSize d none) ∧
    (∀ d : ℝ, d ≤ 300 → CalculateRenderSize d none = 1024) ∧
    (∀ d : ℝ, 2000 ≤ d → CalculateRenderSize d none = 256) ∧
    (∀ d : ℝ, ∃ k : ℕ, CalculateRenderSize d none = 2 ^ k) ∧
    CalculateRenderSize 1150 none = 1024 := by
  refine ⟨?_, ?_, ?_, ?_, ?_⟩
  · intro d d' h
    exact baseRenderSize_anti h
  · intro d h
    exact baseRenderSize_le300 h
  · intro d h
    exact baseRenderSize_ge2000 h
  · intro d
    exact baseRenderSize_pow2 d
  · exact baseRenderSize_1150

/-- C4 witness: the theorem instantiated at concrete distances. -/
theorem c4_render_size_policy_witness :
    (256 : ℝ) ≤ 300 ∧ CalculateRenderSize 256 none = 1024 :=
  ⟨by norm_num, c4_render_size_policy.2.1 256 (by norm_num)⟩

/-- C5 counterexample: at distance 300 with a 2048 x 512 viewport the code
returns 512, the clamp to the rounded-up MINIMUM viewport dimension; the
claim's clamp to the maximum dimension would give 1024. -/
theorem c5_viewport_clamp_counterexample :
    CalculateRenderSize 300 (some (2048, 512)) = 512 ∧
    cppClampZ (CalculateRenderSize 300 none) 256
      ((roundUpToPowerOfTwo (max 2048 512) : ℕ) : ℤ) = 1024 ∧
    (512 : ℤ) ≠ 1024 := by
  have hbase : baseRenderSize 300 = 1024 := baseRenderSize_le300 (by norm_num)
  refine ⟨?_, ?_, by decide⟩
  · show cppClampZ (baseRenderSize 300) 256 ((roundUpToPowerOfTwo (min 2048 512) : ℕ) : ℤ) = 512
    rw [hbase]
    decide
  · show cppClampZ (baseRenderSize 300) 256 ((roundUpToPowerOfTwo (max 2048 512) : ℕ) : ℤ) = 1024
    rw [hbase]
    decide

/-- C5 amended: for every distance and every known viewport of positive
dimensions, the result is a power of two and equals the viewport-free size
clamped between 256 and the viewport's MINIMUM dimension rounded up to a
power of two; whenever that bound is at least 256 the result lies between
256 and the bound. -/
theorem c5_viewport_clamp_amended (d : ℝ) (w h : ℕ) (hw : 0 < w) (hh : 0 < h) :
    (∃ k : ℕ, CalculateRenderSize d (some (w, h)) = 2 ^ k) ∧
    CalculateRenderSize d (some (w, h)) =
      cppClampZ (CalculateRenderSize d none) 256 ((roundUpToPowerOfTwo (min w h) : ℕ) : ℤ) ∧
    (256 ≤ ((roundUpToPowerOfTwo (min w h) : ℕ) : ℤ) →
      256 ≤ CalculateRenderSize d (some (w, h)) ∧
      CalculateRenderSize d (some (w, h)) ≤ ((roundUpToPowerOfTwo (min w h) : ℕ) : ℤ)) := by
  refine ⟨?_, rfl, ?_⟩
  · rcases cppClampZ_self_or (baseRenderSize d) 256 ((roundUpToPowerOfTwo (min w h) : ℕ) : ℤ)
      with hc | hc | hc
    · rcases baseRenderSize_pow2 d with ⟨k, hk⟩
      exact ⟨k, by rw [show CalculateRenderSize d (some (w, h)) =
        cppClampZ (baseRenderSize d) 256 ((roundUpToPowerOfTwo (min w h) : ℕ) : ℤ) from rfl, hc, hk]⟩
    · exact ⟨8, by rw [show CalculateRenderSize d (some (w, h)) =
        cppClampZ (baseRenderSize d) 256 ((roundUpToPowerOfTwo (min w h) : ℕ) : ℤ) from rfl, hc]; decide⟩
    · refine ⟨ceilLog2Aux 32 (min w h), ?_⟩
      rw [show CalculateRenderSize d (some (w, h)) =
        cppClampZ (baseRenderSize d) 256 ((roundUpToPowerOfTwo (min w h) : ℕ) : ℤ) from rfl, hc]
      unfold roundUpToPowerOfTwo
      push_cast
      ring
  · intro hb
    exact cppClampZ_bounds hb

/-- C5 witness: the amended theorem at distance 300 and a 512 x 512
viewport, all hypotheses discharged. -/
theorem c5_viewport_clamp_amended_witness :
    (0 < 512) ∧ (256 ≤ ((roundUpToPowerOfTwo (min 512 512) : ℕ) : ℤ)) ∧
    (256 ≤ CalculateRenderSize 300 (some (512, 512)) ∧
      CalculateRenderSize 300 (some (512, 512)) ≤
        ((roundUpToPowerOfTwo (min 512 512) : ℕ) : ℤ)) :=
  ⟨by decide, by decide,
    (c5_viewport_clamp_amended 300 512 512 (by decide) (by decide)).2.2 (by decide)⟩

/-- C6: in every call of UpdateRenderTarget, if the desired size differs
from the cached size by at most 32 the published target handle and the
cached size are unchanged; if by more than 32, a freshly allocated square
target of the desired size with the black steady-state clear color is
published and the cached size updated. -/
theorem c6_hysteresis (s : PortalState) (env : FrameEnv) :
    ((|CalculateRenderSize (distV env.cameraLocation env.componentLocation) env.viewport -
        s.CachedRenderSize| ≤ 32) →
      (UpdateRenderTarget s env).TextureTarget = s.TextureTarget ∧
      (UpdateRenderTarget s env).CachedRenderSize = s.CachedRenderSize) ∧
    ((32 < |CalculateRenderSize (distV env.cameraLocation env.componentLocation) env.viewport -
        s.CachedRenderSize|) →
      ∃ t : RenderTarget,
        (UpdateRenderTarget s env).TextureTarget = some t ∧
        t.sizeX = CalculateRenderSize (distV env.cameraLocation env.componentLocation) env.viewport ∧
        t.sizeY = CalculateRenderSize (distV env.cameraLocation env.componentLocation) env.viewport ∧
        t.clearColor = ClearColor.black ∧
        (UpdateRenderTarget s env).CachedRenderSize =
          CalculateRenderSize (distV env.cameraLocation env.componentLocation) env.viewport ∧
        (∀ old : RenderTarget, s.TextureTarget = some old → old.id < s.nextId → t.id ≠ old.id)) := by
  constructor
  · intro hle
    unfold UpdateRenderTarget
    rw [if_neg (by simpa using not_lt.mpr hle)]
    exact ⟨rfl, rfl⟩
  · intro hgt
    unfold UpdateRenderTarget
    rw [if_pos (by simpa using hgt)]
    refine ⟨_, rfl, rfl, rfl, rfl, rfl, ?_⟩
    intro old _ hlt
    simp only
    omega

/-- C6 witness: a state cached at 1024 with the camera at the component,
where the desired size is again 1024 so the target survives unchanged. -/
theorem c6_hysteresis_witness :
    (|CalculateRenderSize (distV env0.cameraLocation env0.componentLocation) env0.viewport -
        hysteresisState.CachedRenderSize| ≤ 32) ∧
    ((UpdateRenderTarget hysteresisState env0).TextureTarget = hysteresisState.TextureTarget ∧
     (UpdateRenderTarget hysteresisState env0).CachedRenderSize =
       hysteresisState.CachedRenderSize) := by
  have hd : distV env0.cameraLocation env0.componentLocation = 0 := by
    show normV (env0.cameraLocation - env0.componentLocation) = 0
    have hz : env0.cameraLocation - env0.componentLocation = (⟨0, 0, 0⟩ : FVector) := by
      show (⟨(0 : ℝ) - 0, (0 : ℝ) - 0, (0 : ℝ) - 0⟩ : FVector) = ⟨0, 0, 0⟩
      norm_num
    rw [hz]
    show Real.sqrt (0 * 0 + 0 * 0 + 0 * 0) = 0
    simp
  have hcalc : CalculateRenderSize (distV env0.cameraLocation env0.componentLocation)
      env0.viewport = 1024 := by
    rw [hd]
    exact baseRenderSize_le300 (by norm_num)
  have habs : |CalculateRenderSize (distV env0.cameraLocation env0.componentLocation)
      env0.viewport - hysteresisState.CachedRenderSize| ≤ 32 := by
    rw [hcalc, show hysteresisState.CachedRenderSize = 1024 from rfl]
    norm_num
  exact ⟨habs, (c6_hysteresis hysteresisState env0).1 habs⟩

/- ------------------- state-machine helper lemmas ------------------- -/

theorem sameConfig_refl (s : PortalState) : sameConfig s s := ⟨rfl, rfl, rfl, rfl⟩

theorem sameConfig_trans {s s' s'' : PortalState} (h1 : sameConfig s s')
    (h2 : sameConfig s' s'') : sameConfig s s'' := by
  obtain ⟨a1, b1, c1, d1⟩ := h1
  obtain ⟨a2, b2, c2, d2⟩ := h2
  exact ⟨a2.trans a1, b2.trans b1, c2.trans c1, d2.trans d1⟩

theorem SetOwnerIfAvailable_pres (s : PortalState) (env : FrameEnv) :
    sameConfig s (SetOwnerIfAvailable s env).2 ∧
    (SetOwnerIfAvailable s env).2.m_is_total_reflection = s.m_is_total_reflection ∧
    (SetOwnerIfAvailable s env).2.m_linked_portal = s.m_linked_portal ∧
    (SetOwnerIfAvailable s env).2.m_render_target = s.m_render_target ∧
    (SetOwnerIfAvailable s env).2.m_weight = s.m_weight := by
  unfold SetOwnerIfAvailable
  cases env.ownerActor <;> exact ⟨⟨rfl, rfl, rfl, rfl⟩, rfl, rfl, rfl, rfl⟩

theorem IsOwnerValid_pres (s : PortalState) (env : FrameEnv) :
    sameConfig s (IsOwnerValid s env).2 ∧
    (IsOwnerValid s env).2.m_is_total_reflection = s.m_is_total_reflection ∧
    (IsOwnerValid s env).2.m_linked_portal = s.m_linked_portal ∧
    (IsOwnerValid s env).2.m_render_target = s.m_render_target ∧
    (IsOwnerValid s env).2.m_weight = s.m_weight := by
  unfold IsOwnerValid
  split
  · exact ⟨⟨rfl, rfl, rfl, rfl⟩, rfl, rfl, rfl, rfl⟩
  · exact SetOwnerIfAvailable_pres s env

theorem IsOwnerValid_of_isSome {s : PortalState} (env : FrameEnv)
    (h : s.m_owner.isSome = true) : IsOwnerValid s env = (true, s) := by
  unfold IsOwnerValid
  exact if_pos h

theorem GenerateDefaultTexture_pres (s : PortalState) (env : FrameEnv) :
    sameConfig s (GenerateDefaultTexture s env) ∧
    (GenerateDefaultTexture s env).m_is_total_reflection = s.m_is_total_reflection ∧
    (GenerateDefaultTexture s env).m_linked_portal = s.m_linked_portal ∧
    (GenerateDefaultTexture s env).m_owner = s.m_owner ∧
    (GenerateDefaultTexture s env).m_weight = s.m_weight :=
  ⟨⟨rfl, rfl, rfl, rfl⟩, rfl, rfl, rfl, rfl⟩

theorem UpdateRenderTarget_pres (s : PortalState) (env : FrameEnv) :
    sameConfig s (UpdateRenderTarget s env) ∧
    (UpdateRenderTarget s env).m_is_total_reflection = s.m_is_total_reflection ∧
    (UpdateRenderTarget s env).m_linked_portal = s.m_linked_portal ∧
    (UpdateRenderTarget s env).m_owner = s.m_owner ∧
    (UpdateRenderTarget s env).m_render_target = s.m_render_target := by
  simp only [UpdateRenderTarget]
  split <;> exact ⟨⟨rfl, rfl, rfl, rfl⟩, rfl, rfl, rfl, rfl⟩

theorem UpdateTransformation_shape (s : PortalState) (env : FrameEnv) (w : FTransform) :
    UpdateTransformation s env w = (IsOwnerValid s env).2 ∨
    ∃ oid : ℕ, (IsOwnerValid s env).2.m_owner = some oid ∧
      UpdateTransformation s env w =
        { (IsOwnerValid s env).2 with
          m_is_total_reflection :=
            (BendPose (IsOwnerValid s env).2 (env.portals oid) w).2,
          worldTransform := Tools.ComputeNewTransform
            (BendPose (IsOwnerValid s env).2 (env.portals oid) w).1 (env.portals oid)
            (match (IsOwnerValid s env).2.m_linked_portal with
              | some lid => env.portals lid
              | none => env.portals oid) } := by
  simp only [UpdateTransformation]
  split
  · split
    · rename_i oid hoid
      exact Or.inr ⟨oid, hoid, rfl⟩
    · exact Or.inl rfl
  · exact Or.inl rfl

theorem UpdateTransformation_pres (s : PortalState) (env : FrameEnv) (w : FTransform) :
    sameConfig s (UpdateTransformation s env w) ∧
    (UpdateTransformation s env w).m_linked_portal = s.m_linked_portal ∧
    (UpdateTransformation s env w).m_render_target = s.m_render_target := by
  rcases UpdateTransformation_shape s env w with h | ⟨oid, _, h⟩ <;> rw [h] <;>
    obtain ⟨⟨a, b, c, d⟩, _, hl, hr, _⟩ := IsOwnerValid_pres s env <;>
    exact ⟨⟨a, b, c, d⟩, hl, hr⟩

theorem UpdateNearClipPlane_shape (s : PortalState) (env : FrameEnv) :
    UpdateNearClipPlane s env = (IsOwnerValid s env).2 ∨
    ∃ a b : FVector, UpdateNearClipPlane s env =
      { (IsOwnerValid s env).2 with ClipPlaneNormal := a, ClipPlaneBase := b } := by
  simp only [UpdateNearClipPlane]
  split
  · split
    · exact Or.inr ⟨_, _, rfl⟩
    · exact Or.inl rfl
  · exact Or.inl rfl

theorem UpdateNearClipPlane_pres' (s : PortalState) (env : FrameEnv) :
    sameConfig s (UpdateNearClipPlane s env) ∧
    (UpdateNearClipPlane s env).m_is_total_reflection = s.m_is_total_reflection ∧
    (UpdateNearClipPlane s env).m_linked_portal = s.m_linked_portal ∧
    (UpdateNearClipPlane s env).m_render_target = s.m_render_target := by
  rcases UpdateNearClipPlane_shape s env with h | ⟨a, b, h⟩ <;> rw [h] <;>
    obtain ⟨⟨a1, b1, c1, d1⟩, hf, hl, hr, _⟩ := IsOwnerValid_pres s env <;>
    exact ⟨⟨a1, b1, c1, d1⟩, hf, hl, hr⟩

theorem BendPose_mirror (s : PortalState) (g : Portal) (t : FTransform)
    (h : s.m_type = ECameraType.Mirror ∨ s.m_refractive_ind_1 = s.m_refractive_ind_2) :
    BendPose s g t = (t, s.m_is_total_reflection) := by
  simp only [BendPose, GetTrueType]
  rw [if_neg]
  rintro ⟨h1, h2⟩
  rcases h with h | h
  · exact h1 h
  · exact h2 h

theorem BendPose_flagSpec (s : PortalState) (g : Portal) (t : FTransform)
    (h1 : s.m_type ≠ ECameraType.Mirror)
    (h2 : s.m_refractive_ind_1 ≠ s.m_refractive_ind_2) :
    (BendPose s g t).2 =
      flagSpec s.m_type s.m_refractive_ind_1 s.m_refractive_ind_2 g t := by
  have hguard : s.m_type ≠ ECameraType.Mirror ∧
      s.m_refractive_ind_1 ≠ s.m_refractive_ind_2 := ⟨h1, h2⟩
  simp only [BendPose, GetTrueType, flagSpec, if_pos hguard]
  split <;> rfl

theorem BendPose_congr {s s' : PortalState} (g : Portal) (t : FTransform)
    (h1 : s'.m_type = s.m_type)
    (h2 : s'.m_refractive_ind_1 = s.m_refractive_ind_1)
    (h3 : s'.m_refractive_ind_2 = s.m_refractive_ind_2)
    (h4 : s'.m_is_total_reflection = s.m_is_total_reflection) :
    BendPose s' g t = BendPose s g t := by
  simp only [BendPose, GetTrueType, h1, h2, h3, h4]

theorem UpdateTransformation_flag_of_mirror (s : PortalState) (env : FrameEnv)
    (w : FTransform)
    (h : s.m_type = ECameraType.Mirror ∨ s.m_refractive_ind_1 = s.m_refractive_ind_2) :
    (UpdateTransformation s env w).m_is_total_reflection = s.m_is_total_reflection := by
  obtain ⟨⟨ht, h1, h2, _⟩, hf, _, _, _⟩ := IsOwnerValid_pres s env
  rcases UpdateTransformation_shape s env w with hs | ⟨oid, _, hs⟩
  · rw [hs, hf]
  · rw [hs]
    show (BendPose (IsOwnerValid s env).2 (env.portals oid) w).2 = s.m_is_total_reflection
    rw [BendPose_mirror _ _ _ (by
      rcases h with h | h
      · exact Or.inl (ht.trans h)
      · exact Or.inr (by rw [h1, h2, h]))]
    exact hf

theorem Update_pres (s : PortalState) (env : FrameEnv) (w : FTransform) (p : FMatrix) :
    sameConfig s (Update s env w p) ∧
    ((s.m_type = ECameraType.Mirror ∨ s.m_refractive_ind_1 = s.m_refractive_ind_2) →
      (Update s env w p).m_is_total_reflection = s.m_is_total_reflection) := by
  simp only [Update]
  set s1 := if s.m_render_target.isNone = true then GenerateDefaultTexture s env else s
    with hs1
  have hpres1 : sameConfig s s1 ∧ s1.m_is_total_reflection = s.m_is_total_reflection := by
    rw [hs1]
    split
    · exact ⟨(GenerateDefaultTexture_pres s env).1, (GenerateDefaultTexture_pres s env).2.1⟩
    · exact ⟨sameConfig_refl s, rfl⟩
  have hpres2 : sameConfig s (IsOwnerValid s1 env).2 ∧
      (IsOwnerValid s1 env).2.m_is_total_reflection = s.m_is_total_reflection := by
    obtain ⟨⟨a, b, c, d⟩, hf, _, _, _⟩ := IsOwnerValid_pres s1 env
    exact ⟨sameConfig_trans hpres1.1 ⟨a, b, c, d⟩, hf.trans hpres1.2⟩
  split
  · split
    · constructor
      · exact sameConfig_trans hpres2.1 (sameConfig_trans
          (UpdateTransformation_pres (IsOwnerValid s1 env).2 env w).1
          (UpdateNearClipPlane_pres'
            (UpdateTransformation (IsOwnerValid s1 env).2 env w) env).1)
      · intro hmirror
        show (UpdateNearClipPlane (UpdateTransformation (IsOwnerValid s1 env).2 env w)
          env).m_is_total_reflection = s.m_is_total_reflection
        rw [(UpdateNearClipPlane_pres'
          (UpdateTransformation (IsOwnerValid s1 env).2 env w) env).2.1]
        rw [UpdateTransformation_flag_of_mirror (IsOwnerValid s1 env).2 env w (by
          obtain ⟨ht, ha, hb, _⟩ := hpres2.1
          rcases hmirror with h | h
          · exact Or.inl (ht.trans h)
          · exact Or.inr (by rw [ha, hb, h]))]
        exact hpres2.2
    · exact ⟨hpres2.1, fun _ => hpres2.2⟩
  · exact ⟨hpres2.1, fun _ => hpres2.2⟩

theorem applyOp_pres (s : PortalState) (op : FrameOp) :
    sameConfig s (applyOp s op) ∧
    ((s.m_type = ECameraType.Mirror ∨ s.m_refractive_ind_1 = s.m_refractive_ind_2) →
      (applyOp s op).m_is_total_reflection = s.m_is_total_reflection) := by
  cases op with
  | frame env w p => exact Update_pres s env w p
  | renderTarget env =>
      exact ⟨(UpdateRenderTarget_pres s env).1, fun _ => (UpdateRenderTarget_pres s env).2.1⟩
  | clipPlane env =>
      exact ⟨(UpdateNearClipPlane_pres' s env).1, fun _ => (UpdateNearClipPlane_pres' s env).2.1⟩
  | transformation env w =>
      exact ⟨(UpdateTransformation_pres s env w).1,
        fun h => UpdateTransformation_flag_of_mirror s env w h⟩

theorem runOps_pres (s : PortalState) (ops : List FrameOp) :
    sameConfig s (runOps s ops) ∧
    ((s.m_type = ECameraType.Mirror ∨ s.m_refractive_ind_1 = s.m_refractive_ind_2) →
      s.m_is_total_reflection = false → (runOps s ops).m_is_total_reflection = false) := by
  induction ops generalizing s with
  | nil => exact ⟨sameConfig_refl s, fun _ h => h⟩
  | cons op rest ih =>
      obtain ⟨hcfg, hflag⟩ := applyOp_pres s op
      obtain ⟨ihcfg, ihflag⟩ := ih (applyOp s op)
      refine ⟨sameConfig_trans hcfg ihcfg, fun hm h0 => ?_⟩
      refine ihflag ?_ ?_
      · obtain ⟨ht, h1, h2, _⟩ := hcfg
        rcases hm with h | h
        · exact Or.inl (ht.trans h)
        · exact Or.inr (by rw [h1, h2, h])
      · rw [hflag hm, h0]

/- ----------------------------- claim C2 ----------------------------- -/

/-- C2: when the configured camera type is Mirror or the refractive
indices are equal, in every per-frame update of every run from an
activation state (total-reflection flag initially false) the pose used
for the transform is the input pose unchanged and the
total-internal-reflection flag is false after the call. -/
theorem c2_mirror_pose_unchanged (s0 : PortalState)
    (hcfg : s0.m_type = ECameraType.Mirror ∨
      s0.m_refractive_ind_1 = s0.m_refractive_ind_2)
    (h0 : s0.m_is_total_reflection = false)
    (ops : List FrameOp) (g : Portal) (t : FTransform) :
    BendPose (runOps s0 ops) g t = (t, false) ∧
    (runOps s0 ops).m_is_total_reflection = false := by
  obtain ⟨⟨ht, h1, h2, _⟩, hflag⟩ := runOps_pres s0 ops
  have hF : (runOps s0 ops).m_is_total_reflection = false := hflag hcfg h0
  refine ⟨?_, hF⟩
  rw [BendPose_mirror _ _ _ (by
    rcases hcfg with h | h
    · exact Or.inl (ht.trans h)
    · exact Or.inr (by rw [h1, h2, h])), hF]

/-- C2 witness: the theorem at a concrete mirror-configured state with an
empty run. -/
theorem c2_mirror_pose_unchanged_witness :
    (mirrorState.m_type = ECameraType.Mirror ∨
      mirrorState.m_refractive_ind_1 = mirrorState.m_refractive_ind_2) ∧
    mirrorState.m_is_total_reflection = false ∧
    (BendPose (runOps mirrorState []) portal0 tId = (tId, false) ∧
      (runOps mirrorState []).m_is_total_reflection = false) :=
  ⟨Or.inl rfl, rfl, c2_mirror_pose_unchanged mirrorState (Or.inl rfl) rfl [] portal0 tId⟩

/- ----------------------------- claim C3 ----------------------------- -/

theorem UpdateTransformation_flag_of_owner (s : PortalState) (env : FrameEnv)
    (w : FTransform) (oid : ℕ) (ho : s.m_owner = some oid) :
    (UpdateTransformation s env w).m_is_total_reflection =
      (BendPose s (env.portals oid) w).2 := by
  simp only [UpdateTransformation]
  rw [IsOwnerValid_of_isSome env (by rw [ho]; rfl)]
  simp only [ho, if_true]

theorem Update_flag_eq_bend (s : PortalState) (env : FrameEnv) (w : FTransform)
    (p : FMatrix) (oid : ℕ) (ho : s.m_owner = some oid)
    (hl : s.m_linked_portal.isSome = true) :
    (Update s env w p).m_is_total_reflection =
      (BendPose s (env.portals oid) w).2 := by
  simp only [Update]
  set s1 := if s.m_render_target.isNone = true then GenerateDefaultTexture s env else s
    with hs1
  have h1o : s1.m_owner = s.m_owner := by rw [hs1]; split <;> rfl
  have h1l : s1.m_linked_portal = s.m_linked_portal := by rw [hs1]; split <;> rfl
  have h1t : s1.m_type = s.m_type := by rw [hs1]; split <;> rfl
  have h1a : s1.m_refractive_ind_1 = s.m_refractive_ind_1 := by rw [hs1]; split <;> rfl
  have h1b : s1.m_refractive_ind_2 = s.m_refractive_ind_2 := by rw [hs1]; split <;> rfl
  have h1f : s1.m_is_total_reflection = s.m_is_total_reflection := by
    rw [hs1]; split <;> rfl
  rw [IsOwnerValid_of_isSome env (by rw [h1o, ho]; rfl)]
  simp only
  rw [if_pos (show s1.m_linked_portal.isSome = true by rw [h1l]; exact hl)]
  show (UpdateNearClipPlane (UpdateTransformation s1 env w) env).m_is_total_reflection =
    (BendPose s (env.portals oid) w).2
  rw [(UpdateNearClipPlane_pres' _ env).2.1]
  rw [UpdateTransformation_flag_of_owner s1 env w oid (by rw [h1o, ho])]
  exact congrArg Prod.snd (BendPose_congr (env.portals oid) w h1t h1a h1b h1f)

/-- C3: the total-internal-reflection flag is recomputed by the per-frame
update: after any run from an activation state (flag initially false), a
frame in which the owner and linked portal are resolved leaves the flag
equal to a pure function of the configured camera type, the refractive
indices, and that frame's incidence geometry alone, independent of any
earlier frame's flag. -/
theorem c3_flag_recomputed (s0 : PortalState)
    (h0 : s0.m_is_total_reflection = false)
    (ops : List FrameOp) (env : FrameEnv) (w : FTransform) (p : FMatrix) (oid : ℕ)
    (ho : (runOps s0 ops).m_owner = some oid)
    (hl : (runOps s0 ops).m_linked_portal.isSome = true) :
    (Update (runOps s0 ops) env w p).m_is_total_reflection =
      flagSpec s0.m_type s0.m_refractive_ind_1 s0.m_refractive_ind_2
        (env.portals oid) w := by
  obtain ⟨⟨ht, h1, h2, _⟩, hflag⟩ := runOps_pres s0 ops
  rw [Update_flag_eq_bend _ env w p oid ho hl]
  by_cases hm : s0.m_type ≠ ECameraType.Mirror ∧
      s0.m_refractive_ind_1 ≠ s0.m_refractive_ind_2
  · rw [BendPose_flagSpec _ _ _ (by rw [ht]; exact hm.1) (by rw [h1, h2]; exact hm.2)]
    rw [ht, h1, h2]
  · have hm' : s0.m_type = ECameraType.Mirror ∨
        s0.m_refractive_ind_1 = s0.m_refractive_ind_2 := by
      by_contra hc
      push_neg at hc
      exact hm ⟨hc.1, hc.2⟩
    rw [BendPose_mirror _ _ _ (by
      rcases hm' with h | h
      · exact Or.inl (ht.trans h)
      · exact Or.inr (by rw [h1, h2, h]))]
    show (runOps s0 ops).m_is_total_reflection = _
    rw [hflag hm' h0]
    unfold flagSpec
    rw [if_neg hm]

/-- C3 witness: the theorem at a concrete resolved mirror-type state
with an empty run. -/
theorem c3_flag_recomputed_witness :
    c3State.m_is_total_reflection = false ∧
    (runOps c3State []).m_owner = some 0 ∧
    (runOps c3State []).m_linked_portal.isSome = true ∧
    (Update (runOps c3State []) env0 tId proj0).m_is_total_reflection =
      flagSpec c3State.m_type c3State.m_refractive_ind_1 c3State.m_refractive_ind_2
        (env0.portals 0) tId :=
  ⟨rfl, rfl, rfl, c3_flag_recomputed c3State rfl [] env0 tId proj0 0 rfl rfl⟩

/- ----------------------------- claim C7 ----------------------------- -/

theorem neg_one_smulV (f : FVector) : ((-1 : ℝ)) • f = -f := by
  show (⟨(-1) * f.x, (-1) * f.y, (-1) * f.z⟩ : FVector) = ⟨-f.x, -f.y, -f.z⟩
  norm_num

theorem one_smulV (f : FVector) : ((1 : ℝ)) • f = f := by
  show (⟨1 * f.x, 1 * f.y, 1 * f.z⟩ : FVector) = ⟨f.x, f.y, f.z⟩
  norm_num

/-- C7: in every frame with a valid owner and a resolvable target portal
(the linked portal for Portal type, the owner itself otherwise), the clip
plane has normal -(target forward) * (-1 when Mirror or exitInFront, +1
otherwise) and base = target position + 0.3 * normal; and Mirror type or
exitInFront = true flips the normal's sign relative to Portal type with
exitInFront = false. -/
theorem c7_clip_plane (s : PortalState) (env : FrameEnv) (tid : ℕ)
    (hown : s.m_owner.isSome = true)
    (htgt : (if getType s = ECameraType.Portal then s.m_linked_portal else s.m_owner) =
      some tid) :
    (UpdateNearClipPlane s env).ClipPlaneNormal =
      clipNormalFormula (getType s) s.m_exit_in_front (env.portals tid).forward ∧
    (UpdateNearClipPlane s env).ClipPlaneBase =
      (env.portals tid).location +
        (0.3 : ℝ) • (UpdateNearClipPlane s env).ClipPlaneNormal ∧
    (∀ (e : Bool) (f : FVector),
      clipNormalFormula ECameraType.Mirror e f =
        -(clipNormalFormula ECameraType.Portal false f)) ∧
    (∀ f : FVector,
      clipNormalFormula ECameraType.Portal true f =
        -(clipNormalFormula ECameraType.Portal false f)) := by
  have hmain : (UpdateNearClipPlane s env).ClipPlaneNormal =
      clipNormalFormula (getType s) s.m_exit_in_front (env.portals tid).forward ∧
      (UpdateNearClipPlane s env).ClipPlaneBase =
        (env.portals tid).location +
          (0.3 : ℝ) • (UpdateNearClipPlane s env).ClipPlaneNormal := by
    simp only [UpdateNearClipPlane]
    rw [IsOwnerValid_of_isSome env hown]
    simp only [htgt, clipNormalFormula]
    exact ⟨rfl, rfl⟩
  refine ⟨hmain.1, hmain.2, ?_, ?_⟩
  · intro e f
    unfold clipNormalFormula
    rw [if_pos (Or.inl rfl), if_neg (by rintro (h | h) <;> simp at h)]
    rw [neg_one_smulV, one_smulV]
  · intro f
    unfold clipNormalFormula
    rw [if_pos (Or.inr rfl), if_neg (by rintro (h | h) <;> simp at h)]
    rw [neg_one_smulV, one_smulV]

/-- C7 witness: the theorem at a concrete Portal-type state with owner 0
and linked portal 1. -/
theorem c7_clip_plane_witness :
    clipState.m_owner.isSome = true ∧
    ((if getType clipState = ECameraType.Portal then clipState.m_linked_portal
      else clipState.m_owner) = some 1) ∧
    ((UpdateNearClipPlane clipState env0).ClipPlaneNormal =
      clipNormalFormula (getType clipState) clipState.m_exit_in_front
        (env0.portals 1).forward ∧
     (UpdateNearClipPlane clipState env0).ClipPlaneBase =
      (env0.portals 1).location +
        (0.3 : ℝ) • (UpdateNearClipPlane clipState env0).ClipPlaneNormal ∧
     (∀ (e : Bool) (f : FVector),
       clipNormalFormula ECameraType.Mirror e f =
         -(clipNormalFormula ECameraType.Portal false f)) ∧
     (∀ f : FVector,
       clipNormalFormula ECameraType.Portal true f =
         -(clipNormalFormula ECameraType.Portal false f))) :=
  ⟨rfl, rfl, c7_clip_plane clipState env0 1 rfl rfl⟩

/- ----------------------------- claim C8 ----------------------------- -/

/-- C8 counterexample: with the owner resolved but the linked portal
unresolved, the per-frame update is NOT skipped: CaptureScene still runs
(the capture counter increments), contradicting "no capture is
performed" when the linked portal is unresolved. -/
theorem c8_skip_counterexample :
    skipState.m_linked_portal = none ∧
    (Update skipState env0 tId proj0).captureCount = skipState.captureCount + 1 :=
  ⟨rfl, rfl⟩

/-- C8 amended: when the OWNER is unresolved (and the default texture
already exists), the whole per-frame update is a no-op — no pose, clip
plane, capture or any other mutation — and resolution is retried next
frame; when the owner is resolved but the linked portal is unresolved,
only the pose and clip-plane updates are skipped, while the render
target is still published, the projection matrix stored, and the capture
performed. -/
theorem c8_skip_amended (s : PortalState) (env : FrameEnv) (w : FTransform) (p : FMatrix) :
    (s.m_owner = none → env.ownerActor = none → s.m_render_target.isSome = true →
      Update s env w p = s) ∧
    (s.m_owner.isSome = true → s.m_linked_portal = none →
      s.m_render_target.isSome = true →
      ((Update s env w p).worldTransform = s.worldTransform ∧
       (Update s env w p).ClipPlaneNormal = s.ClipPlaneNormal ∧
       (Update s env w p).ClipPlaneBase = s.ClipPlaneBase ∧
       (Update s env w p).m_is_total_reflection = s.m_is_total_reflection ∧
       (Update s env w p).CachedRenderSize = s.CachedRenderSize ∧
       (Update s env w p).TextureTarget = s.m_render_target ∧
       (Update s env w p).CustomProjectionMatrix = some p ∧
       (Update s env w p).captureCount = s.captureCount + 1)) := by
  constructor
  · intro ho hoa hrt
    simp only [Update]
    have hnone : s.m_render_target.isNone = false := by
      rcases hmem : s.m_render_target with _ | rt
      · rw [hmem] at hrt
        exact Bool.noConfusion hrt
      · rfl
    have hio : IsOwnerValid s env = (false, s) := by
      unfold IsOwnerValid SetOwnerIfAvailable
      rw [ho, hoa]
      simp
    simp only [hnone, Bool.false_eq_true, if_false, hio]
  · intro ho hl hrt
    simp only [Update]
    have hnone : s.m_render_target.isNone = false := by
      rcases hmem : s.m_render_target with _ | rt
      · rw [hmem] at hrt
        exact Bool.noConfusion hrt
      · rfl
    simp only [hnone, Bool.false_eq_true, if_false]
    rw [IsOwnerValid_of_isSome env ho]
    simp only [hl, Option.isSome_none, Bool.false_eq_true, if_false]
    exact ⟨rfl, rfl, rfl, rfl, rfl, rfl, rfl, rfl⟩

/-- C8 witness: the amended theorem's no-op case at a concrete state with
no owner resolvable and a render target present. -/
theorem c8_skip_amended_witness :
    unresolvedState.m_owner = none ∧ env0.ownerActor = none ∧
    unresolvedState.m_render_target.isSome = true ∧
    Update unresolvedState env0 tId proj0 = unresolvedState :=
  ⟨rfl, rfl, rfl, (c8_skip_amended unresolvedState env0 tId proj0).1 rfl rfl rfl⟩

/- ----------------------------- claim C9 ----------------------------- -/

/-- C9: configuring (Init followed by the BeginPlay activation fix-ups)
with a negative weight stores weight 0, and configuring with no linked
portal stores the portal's own owner as the linked portal. -/
theorem c9_configure (s : PortalState) (ty : ECameraType) (lk : Option ℕ) (ex : Bool)
    (wt : ℝ) (env : FrameEnv) :
    (wt < 0 → (BeginPlay (Init s ty lk ex wt) env).m_weight = 0) ∧
    (lk = none → (BeginPlay (Init s ty lk ex wt) env).m_linked_portal =
      (BeginPlay (Init s ty lk ex wt) env).m_owner) := by
  constructor
  · intro hw
    simp only [BeginPlay]
    set s2 := (SetOwnerIfAvailable (GenerateDefaultTexture (Init s ty lk ex wt) env) env).2
      with hs2
    have h2w : s2.m_weight = wt := by
      rw [hs2, (SetOwnerIfAvailable_pres
        (GenerateDefaultTexture (Init s ty lk ex wt) env) env).2.2.2.2]
      rfl
    set s3 := if s2.m_type ≠ ECameraType.Portal then { s2 with m_exit_in_front := false }
      else s2 with hs3
    have h3w : s3.m_weight = wt := by rw [hs3]; split <;> exact h2w
    set s4 := if s3.m_weight < 0 then { s3 with m_weight := 0 } else s3 with hs4
    have h4w : s4.m_weight = 0 := by
      rw [hs4, if_pos (show s3.m_weight < 0 by rw [h3w]; exact hw)]
    have hres : (if s4.m_linked_portal.isNone = true
        then { s4 with m_linked_portal := s4.m_owner } else s4).m_weight = s4.m_weight := by
      split <;> rfl
    rw [hres]
    exact h4w
  · intro hlk
    simp only [BeginPlay]
    set s2 := (SetOwnerIfAvailable (GenerateDefaultTexture (Init s ty lk ex wt) env) env).2
      with hs2
    have h2l : s2.m_linked_portal = none := by
      rw [hs2, (SetOwnerIfAvailable_pres
        (GenerateDefaultTexture (Init s ty lk ex wt) env) env).2.2.1]
      exact hlk
    set s3 := if s2.m_type ≠ ECameraType.Portal then { s2 with m_exit_in_front := false }
      else s2 with hs3
    have h3l : s3.m_linked_portal = none := by rw [hs3]; split <;> exact h2l
    set s4 := if s3.m_weight < 0 then { s3 with m_weight := 0 } else s3 with hs4
    have h4l : s4.m_linked_portal = none := by rw [hs4]; split <;> exact h3l
    rw [if_pos (show s4.m_linked_portal.isNone = true by rw [h4l]; rfl)]

/-- C9 witness: configuring with weight -5 and no linked portal. -/
theorem c9_configure_witness :
    ((-5 : ℝ) < 0) ∧
    (BeginPlay (Init initialState ECameraType.Portal none false (-5)) env0).m_weight = 0 ∧
    (BeginPlay (Init initialState ECameraType.Portal none false (-5)) env0).m_linked_portal =
      (BeginPlay (Init initialState ECameraType.Portal none false (-5)) env0).m_owner :=
  ⟨by norm_num,
   (c9_configure initialState ECameraType.Portal none false (-5) env0).1 (by norm_num),
   (c9_configure initialState ECameraType.Portal none false (-5) env0).2 rfl⟩

/- ----------------------------- claim C10 ---------------------------- -/

theorem BeginPlay_exit_false (s : PortalState) (env : FrameEnv)
    (h : s.m_type ≠ ECameraType.Portal) : (BeginPlay s env).m_exit_in_front = false := by
  simp only [BeginPlay]
  set s2 := (SetOwnerIfAvailable (GenerateDefaultTexture s env) env).2 with hs2
  have h2t : s2.m_type = s.m_type := by
    rw [hs2, (SetOwnerIfAvailable_pres (GenerateDefaultTexture s env) env).1.1]
    rfl
  set s3 := if s2.m_type ≠ ECameraType.Portal then { s2 with m_exit_in_front := false }
    else s2 with hs3
  have h3 : s3 = { s2 with m_exit_in_front := false } := by
    rw [hs3, if_pos (show s2.m_type ≠ ECameraType.Portal by rw [h2t]; exact h)]
  have h3e : s3.m_exit_in_front = false := by rw [h3]
  set s4 := if s3.m_weight < 0 then { s3 with m_weight := 0 } else s3 with hs4
  have h4e : s4.m_exit_in_front = false := by rw [hs4]; split <;> exact h3e
  have hres : (if s4.m_linked_portal.isNone = true
      then { s4 with m_linked_portal := s4.m_owner } else s4).m_exit_in_front =
      s4.m_exit_in_front := by
    split <;> rfl
  rw [hres]
  exact h4e

/-- C10: after activation, a capture configured with a non-Portal camera
type has exit-in-front false, no matter what was supplied at
configuration, and it stays false across every subsequent run of
per-frame operations. -/
theorem c10_exit_in_front_invariant (s : PortalState) (ty : ECameraType)
    (lk : Option ℕ) (ex : Bool) (wt : ℝ) (env : FrameEnv) (ops : List FrameOp)
    (hty : ty ≠ ECameraType.Portal) :
    (runOps (BeginPlay (Init s ty lk ex wt) env) ops).m_exit_in_front = false := by
  rw [(runOps_pres (BeginPlay (Init s ty lk ex wt) env) ops).1.2.2.2]
  exact BeginPlay_exit_false _ env hty

/-- C10 witness: a Mirror-type configuration that supplied
exit-in-front = true nevertheless reads false after activation. -/
theorem c10_exit_in_front_invariant_witness :
    ECameraType.Mirror ≠ ECameraType.Portal ∧
    (runOps (BeginPlay (Init initialState ECameraType.Mirror none true 0) env0)
      []).m_exit_in_front = false :=
  ⟨by decide,
   c10_exit_in_front_invariant initialState ECameraType.Mirror none true 0 env0 [] (by decide)⟩

/- ----------------------------- claim C1 ----------------------------- -/

theorem fvectorExt {a b : FVector} (hx : a.x = b.x) (hy : a.y = b.y)
    (hz : a.z = b.z) : a = b := by
  obtain ⟨ax, ay, az⟩ := a
  obtain ⟨cx, cy, cz⟩ := b
  have h1 : ax = cx := hx
  have h2 : ay = cy := hy
  have h3 : az = cz := hz
  rw [h1, h2, h3]

theorem fquatExt {a b : FQuat} (hx : a.x = b.x) (hy : a.y = b.y)
    (hz : a.z = b.z) (hw : a.w = b.w) : a = b := by
  obtain ⟨ax, ay, az, aw⟩ := a
  obtain ⟨cx, cy, cz, cw⟩ := b
  have h1 : ax = cx := hx
  have h2 : ay = cy := hy
  have h3 : az = cz := hz
  have h4 : aw = cw := hw
  rw [h1, h2, h3, h4]

@[simp] theorem addV_x (a b : FVector) : (a + b).x = a.x + b.x := rfl
@[simp] theorem addV_y (a b : FVector) : (a + b).y = a.y + b.y := rfl
@[simp] theorem addV_z (a b : FVector) : (a + b).z = a.z + b.z := rfl
@[simp] theorem subV_x (a b : FVector) : (a - b).x = a.x - b.x := rfl
@[simp] theorem subV_y (a b : FVector) : (a - b).y = a.y - b.y := rfl
@[simp] theorem subV_z (a b : FVector) : (a - b).z = a.z - b.z := rfl
@[simp] theorem negV_x (a : FVector) : (-a).x = -a.x := rfl
@[simp] theorem negV_y (a : FVector) : (-a).y = -a.y := rfl
@[simp] theorem negV_z (a : FVector) : (-a).z = -a.z := rfl
@[simp] theorem smulV_x (c : ℝ) (a : FVector) : (c • a).x = c * a.x := rfl
@[simp] theorem smulV_y (c : ℝ) (a : FVector) : (c • a).y = c * a.y := rfl
@[simp] theorem smulV_z (c : ℝ) (a : FVector) : (c • a).z = c * a.z := rfl
@[simp] theorem zeroV_x : (0 : FVector).x = 0 := rfl
@[simp] theorem zeroV_y : (0 : FVector).y = 0 := rfl
@[simp] theorem zeroV_z : (0 : FVector).z = 0 := rfl

theorem dotV_self_nonneg (v : FVector) : 0 ≤ dotV v v := by
  unfold dotV
  nlinarith [mul_self_nonneg v.x, mul_self_nonneg v.y, mul_self_nonneg v.z]

theorem dotV_self_pos {v : FVector} (hv : v ≠ 0) : 0 < dotV v v := by
  rcases (dotV_self_nonneg v).lt_or_eq with h | h
  · exact h
  · exfalso
    apply hv
    unfold dotV at h
    have hx : v.x * v.x = 0 := by nlinarith [mul_self_nonneg v.y, mul_self_nonneg v.z]
    have hy : v.y * v.y = 0 := by nlinarith [mul_self_nonneg v.x, mul_self_nonneg v.z]
    have hz : v.z * v.z = 0 := by nlinarith [mul_self_nonneg v.x, mul_self_nonneg v.y]
    exact fvectorExt (mul_self_eq_zero.mp hx) (mul_self_eq_zero.mp hy)
      (mul_self_eq_zero.mp hz)

theorem dotV_normalizeV {v : FVector} (hv : v ≠ 0) :
    dotV (normalizeV v) (normalizeV v) = 1 := by
  have hd := dotV_self_pos hv
  unfold normalizeV
  rw [if_neg hv]
  unfold normV
  have hmul : Real.sqrt (dotV v v) * Real.sqrt (dotV v v) = dotV v v :=
    Real.mul_self_sqrt hd.le
  have hne : Real.sqrt (dotV v v) ≠ 0 := Real.sqrt_ne_zero'.mpr hd
  unfold dotV at hd hmul ⊢
  simp only [smulV_x, smulV_y, smulV_z]
  field_simp

theorem dotV_incidencePlaneNormal {wa mid nrm : FVector}
    (h : crossV (mid - wa) (mid + nrm - wa) ≠ 0) :
    dotV (incidencePlaneNormal wa mid nrm) (incidencePlaneNormal wa mid nrm) = 1 := by
  unfold incidencePlaneNormal
  have h1 := dotV_normalizeV h
  have h2 : normalizeV (crossV (mid - wa) (mid + nrm - wa)) ≠ 0 := by
    intro h0
    rw [h0] at h1
    unfold dotV at h1
    simp only [zeroV_x, zeroV_y, zeroV_z] at h1
    norm_num at h1
  exact dotV_normalizeV h2

/-- The FQuat(axis, angle).RotateVector formula agrees with the Rodrigues
rotation formula whenever the axis is a unit vector: the mathematical
content of "the position is rotated around the plane normal by the
angle". -/
theorem quatRotate_axisAngle (n : FVector) (θ : ℝ) (v : FVector)
    (hn : dotV n n = 1) :
    quatRotate (quatFromAxisAngle n θ) v = rodrigues n θ v := by
  have hs : Real.sin θ = 2 * Real.sin (θ / 2) * Real.cos (θ / 2) := by
    conv_lhs => rw [show θ = 2 * (θ / 2) by ring]
    rw [Real.sin_two_mul]
  have hc : Real.cos θ = 1 - 2 * Real.sin (θ / 2) ^ 2 := by
    conv_lhs => rw [show θ = 2 * (θ / 2) by ring]
    rw [Real.cos_two_mul]
    linear_combination 2 * Real.sin_sq_add_cos_sq (θ / 2)
  unfold dotV at hn
  refine fvectorExt ?_ ?_ ?_ <;>
    simp only [quatRotate, quatFromAxisAngle, rodrigues, crossV, dotV,
      addV_x, addV_y, addV_z, smulV_x, smulV_y, smulV_z] <;>
    rw [hs, hc]
  · linear_combination (-2 * Real.sin (θ / 2) ^ 2 * v.x) * hn
  · linear_combination (-2 * Real.sin (θ / 2) ^ 2 * v.y) * hn
  · linear_combination (-2 * Real.sin (θ / 2) ^ 2 * v.z) * hn

/-- A rotator with zero pitch and roll converts to the quaternion of a
pure rotation about the up axis by the yaw angle: "only the yaw component
carries through; the camera does not tilt, only turns". -/
theorem rotatorToQuat_yawOnly (yw : ℝ) :
    rotatorToQuat ⟨0, yw, 0⟩ = quatFromAxisAngle ⟨0, 0, 1⟩ (degToRad yw) := by
  unfold rotatorToQuat quatFromAxisAngle degToRad
  refine fquatExt ?_ ?_ ?_ ?_ <;>
    norm_num [Real.sin_zero, Real.cos_zero]

/-- C1: in the refraction branch of UpdateTransformation (camera type not
Mirror, distinct refractive indices, no total reflection, non-degenerate
incidence plane), the flag comes out false, the incidence-plane normal is
a unit vector, the watcher position is rotated about the portal midpoint
around that normal by exactly (incidenceAngle - refractionAngle) degrees
(stated through the Rodrigues formula), and the orientation is composed
with a pure up-axis rotation by the yaw extracted from that same rotation
after zeroing pitch and roll. -/
theorem c1_refraction_bend (s : PortalState) (g : Portal) (t : FTransform)
    (h1 : GetTrueType s ≠ ECameraType.Mirror)
    (h2 : s.m_refractive_ind_1 ≠ s.m_refractive_ind_2)
    (hr : Tools.ComputeRefractionAngle
        (Tools.ComputeIncidenceAngle t.location g.middlePoint g.forward)
        s.m_refractive_ind_1 s.m_refractive_ind_2 ≠ -1)
    (hnd : crossV (g.middlePoint - t.location)
        (g.middlePoint + g.forward - t.location) ≠ 0) :
    (BendPose s g t).2 = false ∧
    dotV (incidencePlaneNormal t.location g.middlePoint g.forward)
      (incidencePlaneNormal t.location g.middlePoint g.forward) = 1 ∧
    (BendPose s g t).1.location =
      g.middlePoint +
        rodrigues (incidencePlaneNormal t.location g.middlePoint g.forward)
          (degToRad (Tools.ComputeIncidenceAngle t.location g.middlePoint g.forward -
            Tools.ComputeRefractionAngle
              (Tools.ComputeIncidenceAngle t.location g.middlePoint g.forward)
              s.m_refractive_ind_1 s.m_refractive_ind_2))
          (t.location - g.middlePoint) ∧
    (BendPose s g t).1.rotation =
      quatMul
        (quatFromAxisAngle ⟨0, 0, 1⟩
          (degToRad
            (quatToRotator
              (quatFromAxisAngle (incidencePlaneNormal t.location g.middlePoint g.forward)
                (degToRad (Tools.ComputeIncidenceAngle t.location g.middlePoint g.forward -
                  Tools.ComputeRefractionAngle
                    (Tools.ComputeIncidenceAngle t.location g.middlePoint g.forward)
                    s.m_refractive_ind_1 s.m_refractive_ind_2)))).yaw))
        t.rotation := by
  have hunit := @dotV_incidencePlaneNormal t.location g.middlePoint g.forward hnd
  simp only [BendPose]
  rw [if_pos ⟨h1, h2⟩, if_neg hr]
  refine ⟨rfl, hunit, ?_, ?_⟩
  · exact congrArg (fun u => g.middlePoint + u) (quatRotate_axisAngle _ _ _ hunit)
  · exact congrArg (fun q => quatMul q t.rotation) (rotatorToQuat_yawOnly _)

/-- Total reflection cannot occur when n1/n2 lies in [0, 1] (passing into
a denser medium), whatever the incidence geometry: used to discharge the
no-total-reflection hypothesis at a concrete input. -/
theorem ComputeRefractionAngle_ne_sentinel (p mid nrm : FVector) (n1 n2 : ℝ)
    (hr0 : 0 ≤ n1 / n2) (hr1 : n1 / n2 ≤ 1) :
    Tools.ComputeRefractionAngle (Tools.ComputeIncidenceAngle p mid nrm) n1 n2 ≠ -1 := by
  have hdr : ∀ x : ℝ, degToRad (radToDeg x) = x := by
    intro x
    unfold degToRad radToDeg
    field_simp
  unfold Tools.ComputeRefractionAngle Tools.ComputeIncidenceAngle
  rw [hdr]
  set u := dotV (p - mid) nrm / (normV (p - mid) * normV nrm) with hu
  rw [Real.sin_arccos]
  have hs0 : 0 ≤ Real.sqrt (1 - u ^ 2) := Real.sqrt_nonneg _
  have hs1 : Real.sqrt (1 - u ^ 2) ≤ 1 := by
    have : Real.sqrt (1 - u ^ 2) ≤ Real.sqrt 1 :=
      Real.sqrt_le_sqrt (by nlinarith [sq_nonneg u])
    simpa using this
  have hval : 0 ≤ n1 / n2 * Real.sqrt (1 - u ^ 2) := mul_nonneg hr0 hs0
  have hle : n1 / n2 * Real.sqrt (1 - u ^ 2) ≤ 1 := by nlinarith
  rw [if_neg (not_lt.mpr hle)]
  have hpos : 0 ≤ radToDeg (Real.arcsin (n1 / n2 * Real.sqrt (1 - u ^ 2))) := by
    unfold radToDeg
    apply mul_nonneg (Real.arcsin_nonneg.mpr hval)
    positivity
  intro hcontra
  rw [hcontra] at hpos
  norm_num at hpos

/-- C1 witness: the theorem at a concrete refracting configuration with
the watcher at (1, 0, 1) and a portal at the origin facing +x. -/
theorem c1_refraction_bend_witness :
    (GetTrueType refrState ≠ ECameraType.Mirror) ∧
    (refrState.m_refractive_ind_1 ≠ refrState.m_refractive_ind_2) ∧
    (Tools.ComputeRefractionAngle
      (Tools.ComputeIncidenceAngle refrT.location portal0.middlePoint portal0.forward)
      refrState.m_refractive_ind_1 refrState.m_refractive_ind_2 ≠ -1) ∧
    (crossV (portal0.middlePoint - refrT.location)
      (portal0.middlePoint + portal0.forward - refrT.location) ≠ 0) ∧
    ((BendPose refrState portal0 refrT).2 = false ∧
     dotV (incidencePlaneNormal refrT.location portal0.middlePoint portal0.forward)
       (incidencePlaneNormal refrT.location portal0.middlePoint portal0.forward) = 1 ∧
     (BendPose refrState portal0 refrT).1.location =
       portal0.middlePoint +
         rodrigues (incidencePlaneNormal refrT.location portal0.middlePoint portal0.forward)
           (degToRad (Tools.ComputeIncidenceAngle refrT.location portal0.middlePoint
              portal0.forward -
             Tools.ComputeRefractionAngle
               (Tools.ComputeIncidenceAngle refrT.location portal0.middlePoint
                 portal0.forward)
               refrState.m_refractive_ind_1 refrState.m_refractive_ind_2))
           (refrT.location - portal0.middlePoint) ∧
     (BendPose refrState portal0 refrT).1.rotation =
       quatMul
         (quatFromAxisAngle ⟨0, 0, 1⟩
           (degToRad
             (quatToRotator
               (quatFromAxisAngle
                 (incidencePlaneNormal refrT.location portal0.middlePoint portal0.forward)
                 (degToRad (Tools.ComputeIncidenceAngle refrT.location portal0.middlePoint
                    portal0.forward -
                   Tools.ComputeRefractionAngle
                     (Tools.ComputeIncidenceAngle refrT.location portal0.middlePoint
                       portal0.forward)
                     refrState.m_refractive_ind_1 refrState.m_refractive_ind_2)))).yaw))
         refrT.rotation) := by
  have hA : GetTrueType refrState ≠ ECameraType.Mirror := by decide
  have hB : refrState.m_refractive_ind_1 ≠ refrState.m_refractive_ind_2 := by
    show (1 : ℝ) ≠ 2
    norm_num
  have hC : Tools.ComputeRefractionAngle
      (Tools.ComputeIncidenceAngle refrT.location portal0.middlePoint portal0.forward)
      refrState.m_refractive_ind_1 refrState.m_refractive_ind_2 ≠ -1 := by
    apply ComputeRefractionAngle_ne_sentinel
    · show (0 : ℝ) ≤ 1 / 2
      norm_num
    · show (1 : ℝ) / 2 ≤ 1
      norm_num
  have hD : crossV (portal0.middlePoint - refrT.location)
      (portal0.middlePoint + portal0.forward - refrT.location) ≠ 0 := by
    intro h0
    have hy := congrArg FVector.y h0
    simp only [portal0, refrT, crossV, subV_x, subV_y, subV_z, addV_x, addV_y, addV_z,
      zeroV_y] at hy
    norm_num at hy
  exact ⟨hA, hB, hC, hD, c1_refraction_bend refrState portal0 refrT hA hB hC hD⟩

end Portals
